import Mathlib

/-!
Verification development for a set of SaltStack execution modules:
a VyOS router session wrapper (vyos.py), a libvirt wrapper (virsh.py)
and small time utilities (time_functions.py).

Python machinery is embedded shallowly: strings are Lean strings, the
interactive device and external libraries (pexpect, libvirt, the re
module, the host clock) are oracles passed explicitly, exceptions are
explicit error values, and `sys.exit` is an explicit outcome
constructor.
-/

instance {ε α : Type} [DecidableEq ε] [DecidableEq α] : DecidableEq (Except ε α) :=
  fun a b =>
    match a, b with
    | .ok x, .ok y =>
      if h : x = y then .isTrue (by rw [h]) else .isFalse (by simp [h])
    | .error x, .error y =>
      if h : x = y then .isTrue (by rw [h]) else .isFalse (by simp [h])
    | .ok _, .error _ => .isFalse (by simp)
    | .error _, .ok _ => .isFalse (by simp)

/-- Python-level runtime errors that the embedded code can raise. -/
inductive PyErr where
  | attributeError (name : String)
  | indexError
deriving DecidableEq, Repr

/-- Character-list version of Python `str.startswith`:
`chars_starts_with pre s` is true when `pre` is an initial segment of `s`. -/
def chars_starts_with : List Char → List Char → Bool
  | [], _ => true
  | _ :: _, [] => false
  | a :: as, b :: bs => a = b && chars_starts_with as bs

/-- Python `s.startswith(pre)` on strings. -/
def py_startswith (s pre : String) : Bool :=
  chars_starts_with pre.data s.data

/-- Character-list search: does `pat` occur contiguously in `s`? -/
def chars_contains : List Char → List Char → Bool
  | [], pat => pat.isEmpty
  | c :: t, pat => chars_starts_with pat (c :: t) || chars_contains t pat

/-- Python `phrase in s` (substring containment). -/
def py_contains (s phrase : String) : Bool :=
  chars_contains s.data phrase.data

/- ----------------------------------------------------------------- -/
/- vyos.py: Router session wrapper                                   -/
/- ----------------------------------------------------------------- -/

/-- Character set of `line.rstrip('?[m')` in `Router.execute_command`. -/
def is_artifact_char (c : Char) : Bool :=
  c = '?' || c = '[' || c = 'm'

/-- Python `line.rstrip('?[m')`: drop trailing characters drawn from
the set `{ ?, [, m }`. -/
def rstrip_artifacts (s : String) : String :=
  String.mk ((s.data.reverse.dropWhile is_artifact_char).reverse)

/-- Python `for x in range(1, n, 1): del(output[0])` executed on a list:
performs the requested number of deletions of the head, raising
`IndexError` if the list is empty at some deletion (as `del` does). -/
def py_del_front : Nat → List String → Except PyErr (List String)
  | 0, l => .ok l
  | _ + 1, [] => .error .indexError
  | n + 1, _ :: t => py_del_front n t

/-- Python `for x in range(1, n, 1): del(output[-1])` executed on a list:
performs the requested number of deletions of the last element, raising
`IndexError` if the list is empty at some deletion. -/
def py_del_back : Nat → List String → Except PyErr (List String)
  | 0, l => .ok l
  | _ + 1, [] => .error .indexError
  | n + 1, l@(_ :: _) => py_del_back n l.dropLast

/-- Output normalization of `Router.execute_command` (vyos.py lines
108-138).  `raw` is `session.before.splitlines()`.  The counters are
the source's `remove_top_lines` / `remove_bottom_lines`; note the
source loops are `range(1, k, 1)`, which execute `k - 1` times. -/
def execute_command_output (raw : List String) (config_mode_required : Bool) :
    Except PyErr (List String) :=
  let remove_top_lines : Nat := if config_mode_required then 1 + 3 else 1
  let remove_bottom_lines : Nat := if config_mode_required then 2 + 1 else 2
  let output := raw.map rstrip_artifacts
  if 3 ≤ output.length then
    match py_del_front (remove_top_lines - 1) output with
    | .error e => .error e
    | .ok o1 =>
      match py_del_back (remove_bottom_lines - 1) o1 with
      | .error e => .error e
      | .ok o2 => .ok o2
  else
    .ok output

/-- The lines `Router.execute_command` sends to the device session
(besides the implicit session setup), in order. -/
def execute_command_sent (command : String) (config_mode_required : Bool) :
    List String :=
  if config_mode_required then
    ["config", command, "commit", "save", "exit", "exit"]
  else
    [command, "exit"]

/-- The two lines `Router.__init__` sends right after spawning. -/
def router_setup_lines : List String :=
  ["export TERM=xterm", "set terminal length 0"]

/-- Session flags of a `Router` object (vyos.py lines 85-97); the
`logged_in` attribute is deliberately absent because `__init__` never
assigns it (see `router_init_attrs`). -/
structure RouterFlags where
  session_modified : Bool
  session_saved : Bool
  conf_mode : Bool
deriving DecidableEq, Repr

/-- Flags set by `Router.__init__`. -/
def router_init : RouterFlags :=
  { session_modified := false, session_saved := true, conf_mode := false }

/-- Return value of `run_op_mode_command`: either the normalized output
lines or the literal rejection message string. -/
inductive OpReturn where
  | lines (l : List String)
  | msg (s : String)
deriving DecidableEq, Repr

/-- Observable outcome of a `run_op_mode_command` call: the returned
value (or propagated Python error), whether a `Router` session was
opened, and every line sent to a device. -/
structure OpDispatch where
  result : Except PyErr OpReturn
  session_opened : Bool
  sent : List String
deriving DecidableEq, Repr

/-- `run_op_mode_command` (vyos.py lines 156-175), with the raw device
output of the session as an oracle.  A fresh `Router` has
`conf_mode = False`, so the `run` prefixing is inert and the command
sent is `"{0} {1}".format("", command)`, i.e. a leading space. -/
def run_op_mode_command (command : String) (raw : List String) : OpDispatch :=
  if py_startswith command "show" then
    { result :=
        match execute_command_output raw false with
        | .ok out => .ok (.lines out)
        | .error e => .error e
      session_opened := true
      sent := router_setup_lines ++ execute_command_sent (" " ++ command) false }
  else
    { result := .ok (.msg "Op mode commands must begin with \"show\".")
      session_opened := false
      sent := [] }

/-- The allow-list of `run_config_mode_command` (vyos.py lines 187-188). -/
def config_allow_list : List String :=
  ["confirm", "comment", "compare", "copy", "delete", "discard", "edit",
   "load", "loadkey", "merge", "rename", "rollback", "run", "set", "show"]

/-- Observable outcome of a `run_config_mode_command` call.  `result`
is `.ok none` when the function falls through its `if` and returns
Python `None`; `flags` holds the constructed `Router`'s session flags,
`none` when no `Router` was constructed. -/
structure ConfigDispatch where
  result : Except PyErr (Option (List String))
  session_opened : Bool
  sent : List String
  flags : Option RouterFlags
deriving DecidableEq, Repr

/-- `run_config_mode_command` (vyos.py lines 178-192), with the raw
device output as an oracle.  `save_changes` is accepted and unused,
as in the source.  No inspection of the output for failure phrases
happens here; the flags of the fresh `Router` are returned unchanged
because `execute_command` never assigns any session flag. -/
def run_config_mode_command (command : String) (save_changes : Bool)
    (raw : List String) : ConfigDispatch :=
  if config_allow_list.any (fun p => py_startswith command p) then
    { result :=
        match execute_command_output raw true with
        | .ok out => .ok (some out)
        | .error e => .error e
      session_opened := true
      sent := router_setup_lines ++ execute_command_sent command true
      flags := some router_init }
  else
    { result := .ok none
      session_opened := false
      sent := []
      flags := none }

/-- Exception classes of vyos.py (`VyOSError` and subclasses). -/
inductive VyErr where
  | vyos
  | config
  | commit
  | locked
deriving DecidableEq, Repr

/-- Outcome of one of the stub state-machine methods: the raised
exception if any, the session flags afterwards, and the commands sent
to the device by the call. -/
structure StubOutcome where
  err : Option VyErr
  state : RouterFlags
  sent : List String
deriving DecidableEq, Repr

/-- `_exit` (vyos.py lines 242-271) read as a transition on the session
flags.  On a raise no assignment has happened, so the state is
unchanged.  Note the forced-exit branch sets `conf_mode` to false but
never touches `session_modified`. -/
def vy_exit (s : RouterFlags) (force : Bool) : StubOutcome :=
  if !s.conf_mode then
    { err := none, state := s, sent := [] }
  else if s.session_modified then
    if !force then
      { err := some .vyos, state := s, sent := [] }
    else
      { err := none, state := { s with conf_mode := false },
        sent := ["exit discard"] }
  else if !s.session_saved && !force then
    { err := some .vyos, state := s, sent := [] }
  else
    { err := none, state := { s with conf_mode := false }, sent := ["exit"] }

/-- `_save` (vyos.py lines 224-239) read as a transition on the session
flags: both guard failures raise before `__execute_command("save")`. -/
def vy_save (s : RouterFlags) : StubOutcome :=
  if !s.conf_mode then
    { err := some .vyos, state := s, sent := [] }
  else if s.session_modified then
    { err := some .vyos, state := s, sent := [] }
  else
    { err := none, state := { s with session_saved := true }, sent := ["save"] }

/- ----------------------------------------------------------------- -/
/- vyos.py: Router attribute dictionary and status()                 -/
/- ----------------------------------------------------------------- -/

/-- Values stored in a `Router` object's attribute dictionary. -/
inductive PyVal where
  | pybool (b : Bool)
  | pystr (s : String)
  | pysession
deriving DecidableEq, Repr

/-- The attribute dictionary produced by `Router.__init__` (vyos.py
lines 85-97), in assignment order.  These five are the only attribute
assignments anywhere in the class; in particular no method ever
assigns `logged_in`. -/
def router_init_attrs : List (String × PyVal) :=
  [("session_modified", .pybool false),
   ("session_saved", .pybool true),
   ("conf_mode", .pybool false),
   ("codec", .pystr "utf8"),
   ("session", .pysession)]

/-- Python attribute read: `AttributeError` when the name is unbound. -/
def py_getattr (attrs : List (String × PyVal)) (name : String) :
    Except PyErr PyVal :=
  match attrs.find? (fun kv => kv.1 = name) with
  | some kv => .ok kv.2
  | none => .error (.attributeError name)

/-- `Router.status` (vyos.py lines 140-148): builds the status dict by
reading `logged_in` first, then the three session flags. -/
def router_status (attrs : List (String × PyVal)) :
    Except PyErr (List (String × PyVal)) := do
  let li ← py_getattr attrs "logged_in"
  let sm ← py_getattr attrs "session_modified"
  let ss ← py_getattr attrs "session_saved"
  let cm ← py_getattr attrs "conf_mode"
  .ok [("logged_in", li), ("session_modified", sm),
       ("session_saved", ss), ("conf_mode", cm)]

/- ----------------------------------------------------------------- -/
/- virsh.py: libvirt wrapper                                         -/
/- ----------------------------------------------------------------- -/

/-- Oracle for the libvirt hypervisor connection: whether
`libvirt.open` yields a connection, whether `listAllDomains` succeeds,
the domain names enumerated for each state code, and which
`lookupByName` / lifecycle calls succeed for each domain name. -/
structure LibvirtWorld where
  open_ok : Bool
  list_all_ok : Bool
  domains_for : Nat → List String
  lookup_ok : String → Bool
  reboot_ok : String → Bool
  shutdown_ok : String → Bool
  destroy_ok : String → Bool
  create_ok : String → Bool

/-- Outcome of a Python call that may terminate via `sys.exit`. -/
inductive PyResult (α : Type) where
  | ret (v : α)
  | exited (code : Nat)
deriving DecidableEq, Repr

/-- Values the virsh wrapper functions return: a boolean (`True` on
success, `False` on a collapsed failure) or a list of domain names. -/
inductive SaltRet where
  | boolean (b : Bool)
  | names (l : List String)
deriving DecidableEq, Repr

/-- The filtering loop of `list` (virsh.py lines 94-102): start from an
empty accumulator and append each domain the regex search accepts.
`rs pat s` is the oracle for `re.search(pat, s, re.I | re.S | re.M)
is not None`. -/
def list_filter (rs : String → String → Bool) (mtch : String)
    (vm_list : List String) : List String :=
  vm_list.foldl (fun acc d => if rs mtch d then acc ++ [d] else acc) []

/-- `list` (virsh.py lines 74-105): maps the state name to a code
(exiting on an unknown state), enumerates domains through
`_connect_to_libvirt` / `_list_vms` (exiting when the connection is
`None`, returning `False` when enumeration fails) and filters the
names with the regex oracle. -/
def virsh_list (rs : String → String → Bool) (w : LibvirtWorld)
    (mtch state : String) : PyResult SaltRet :=
  let code? : Option Nat :=
    if state = "all" then some 0
    else if state = "running" then some 1
    else if state = "shutdown" then some 2
    else none
  match code? with
  | none => .exited 1
  | some code =>
    if w.open_ok then
      if w.list_all_ok then
        .ret (.names (list_filter rs mtch (w.domains_for code)))
      else
        .ret (.boolean false)
    else
      .exited 1

/-- `reboot` (virsh.py lines 108-128): `exit(1)` when the connection is
`None`; otherwise `True` when lookup and the reboot call both succeed,
`False` when either raises (caught by the bare `except`). -/
def virsh_reboot (w : LibvirtWorld) (domain : String) : PyResult SaltRet :=
  if w.open_ok then
    if w.lookup_ok domain && w.reboot_ok domain then
      .ret (.boolean true)
    else
      .ret (.boolean false)
  else
    .exited 1

/-- `shutdown` (virsh.py lines 131-154): like `reboot`, with `destroy`
on `force=True` and `shutdown` otherwise. -/
def virsh_shutdown (w : LibvirtWorld) (domain : String) (force : Bool) :
    PyResult SaltRet :=
  if w.open_ok then
    if w.lookup_ok domain &&
        (if force then w.destroy_ok domain else w.shutdown_ok domain) then
      .ret (.boolean true)
    else
      .ret (.boolean false)
  else
    .exited 1

/-- `start` (virsh.py lines 194-213): `True` when lookup and `create`
both succeed, `False` when either raises. -/
def virsh_start (w : LibvirtWorld) (domain : String) : PyResult SaltRet :=
  if w.open_ok then
    if w.lookup_ok domain && w.create_ok domain then
      .ret (.boolean true)
    else
      .ret (.boolean false)
  else
    .exited 1

/-- `shutdown_matching` (virsh.py lines 157-191): `exit(1)` on a `None`
connection, `False` when enumeration fails, otherwise the full domain
list is returned; per-domain lookup/shutdown failures are only logged
and do not affect the return value. -/
def virsh_shutdown_matching (rs : String → String → Bool) (w : LibvirtWorld)
    (mtch : String) (force : Bool) : PyResult SaltRet :=
  if w.open_ok then
    if w.list_all_ok then
      .ret (.names (w.domains_for 0))
    else
      .ret (.boolean false)
  else
    .exited 1

/-- `start_matching` (virsh.py lines 216-247): same shape as
`shutdown_matching` with `create` as the lifecycle call. -/
def virsh_start_matching (rs : String → String → Bool) (w : LibvirtWorld)
    (mtch : String) (sleep_secs : Nat) : PyResult SaltRet :=
  if w.open_ok then
    if w.list_all_ok then
      .ret (.names (w.domains_for 0))
    else
      .ret (.boolean false)
  else
    .exited 1

/-- ASCII lower-casing of one character, for the concrete regex model. -/
def ascii_lower (c : Char) : Char :=
  if 65 ≤ c.toNat ∧ c.toNat ≤ 90 then Char.ofNat (c.toNat + 32) else c

/-- Model of `re.search("^web", s, re.I | re.S | re.M) is not None` on
domain names without newlines: the lower-cased name starts with
`web`. -/
def re_search_caret_web (pat s : String) : Bool :=
  chars_starts_with "web".data (s.data.map ascii_lower)

/-- Concrete hypervisor world for the `^web` scenario: healthy
connection, domains `web1, web2, db1` in every state bucket. -/
def world_web : LibvirtWorld :=
  { open_ok := true
    list_all_ok := true
    domains_for := fun _ => ["web1", "web2", "db1"]
    lookup_ok := fun _ => true
    reboot_ok := fun _ => true
    shutdown_ok := fun _ => true
    destroy_ok := fun _ => true
    create_ok := fun _ => true }

/-- Concrete world whose hypervisor connection cannot be opened. -/
def world_down : LibvirtWorld :=
  { open_ok := false
    list_all_ok := true
    domains_for := fun _ => []
    lookup_ok := fun _ => false
    reboot_ok := fun _ => false
    shutdown_ok := fun _ => false
    destroy_ok := fun _ => false
    create_ok := fun _ => false }

/- ----------------------------------------------------------------- -/
/- time_functions.py                                                 -/
/- ----------------------------------------------------------------- -/

/-- A Python `time.struct_time`-style tuple as produced by
`datetime.timetuple()`. -/
structure PyTimeTuple where
  tm_year : Int
  tm_mon : Nat
  tm_mday : Nat
  tm_hour : Nat
  tm_min : Nat
  tm_sec : Nat
deriving DecidableEq, Repr

/-- Oracle for the host clock and the standard library conversions:
`now_tuple` is `datetime.datetime.now().timetuple()`, `utcnow_tuple`
is `datetime.datetime.utcnow().timetuple()`, `mktime_int` is
`int(time.mktime(t))` (the local-calendar conversion) and `timegm_int`
is the UTC conversion `calendar.timegm` (present in the oracle for
comparison; the source never calls it). -/
structure HostClock where
  now_tuple : PyTimeTuple
  utcnow_tuple : PyTimeTuple
  mktime_int : PyTimeTuple → Int
  timegm_int : PyTimeTuple → Int

/-- `get_local_epoch_time` (time_functions.py lines 41-50):
`int(time.mktime(datetime.datetime.now().timetuple()))`. -/
def get_local_epoch_time (c : HostClock) : Int :=
  c.mktime_int c.now_tuple

/-- `get_utc_epoch_time` (time_functions.py lines 53-62):
`int(time.mktime(datetime.datetime.utcnow().timetuple()))` — note the
conversion function is `time.mktime`, the same one the local path
uses, applied to the UTC tuple. -/
def get_utc_epoch_time (c : HostClock) : Int :=
  c.mktime_int c.utcnow_tuple

/-- Concrete clock whose local conversion and UTC conversion disagree
everywhere, to separate the two paths. -/
def clock_ex : HostClock :=
  { now_tuple := { tm_year := 2016, tm_mon := 8, tm_mday := 3,
                   tm_hour := 5, tm_min := 0, tm_sec := 0 }
    utcnow_tuple := { tm_year := 2016, tm_mon := 8, tm_mday := 3,
                      tm_hour := 12, tm_min := 0, tm_sec := 0 }
    mktime_int := fun _ => 1000
    timegm_int := fun _ => 2000 }

/- ----------------------------------------------------------------- -/
/- Concrete fixtures                                                 -/
/- ----------------------------------------------------------------- -/

/-- First whitespace-delimited token of a command string, following the
claim's wording ("the literal token show"); used to compare the
token-based reading of the dispatcher rule with the source's
prefix-based check. -/
def spec_first_token (s : String) : String :=
  String.mk ((s.data.dropWhile (fun c => c == ' ')).takeWhile (fun c => !(c == ' ')))

/-- Device transcript for the configuration scenario: the raw session
output when the device replies that the path already exists. -/
def raw_c4 : List String :=
  ["vyos@vyos:~$ config",
   "[edit]",
   "vyos@vyos# set interfaces eth0 address 1.2.3.4",
   "Configuration path: [interfaces eth0 address 1.2.3.4] already exists",
   "[edit]",
   "vyos@vyos# commit",
   "vyos@vyos# save",
   "exit"]

/-- A small device transcript for operational-mode runs. -/
def raw_c5 : List String :=
  ["header line", "payload line", "trailing prompt", "exit"]

/- ----------------------------------------------------------------- -/
/- Helper lemmas                                                     -/
/- ----------------------------------------------------------------- -/

/-- The append-accumulator loop of `list` computes `List.filter`. -/
theorem list_filter_go (rs : String → String → Bool) (m : String) :
    ∀ (L acc : List String),
      L.foldl (fun acc d => if rs m d then acc ++ [d] else acc) acc
        = acc ++ L.filter (fun d => rs m d) := by
  intro L
  induction L with
  | nil => intro acc; simp
  | cons d t ih =>
    intro acc
    simp only [List.foldl_cons, List.filter_cons]
    cases h : rs m d with
    | true => simp [h, ih (acc ++ [d])]
    | false => simp [h, ih acc]

/- ----------------------------------------------------------------- -/
/- Claims                                                            -/
/- ----------------------------------------------------------------- -/

/-- Claim C1 (code behavior at the failing input): with
`config_mode_required = False` and a raw output of exactly 3 lines the
normalizer returns 2 lines, not the 0 lines the claim's `N - 3` rule
demands, because the `range(1, k, 1)` loops delete only `k - 1` lines
(0 leading and 1 trailing here); a 2-line output passes through
unchanged, and a 5-line output keeps 4 lines. -/
theorem c1_normalizer_code_behavior :
    execute_command_output ["line0", "line1", "line2"] false
        = .ok ["line0", "line1"]
    ∧ execute_command_output ["line0", "line1"] false
        = .ok ["line0", "line1"]
    ∧ execute_command_output ["line0", "line1", "line2", "line3", "line4"] false
        = .ok ["line0", "line1", "line2", "line3"] := by
  decide

/-- Claim C2: the filtering loop of `list` returns exactly the
order-preserving sublist of names accepted by the regex-search oracle,
and on the concrete scenario (state `running`, pattern `^web`, domains
`web1, web2, db1`) it returns `[web1, web2]`. -/
theorem c2_list_filter_spec :
    (∀ (rs : String → String → Bool) (m : String) (L : List String),
        list_filter rs m L = L.filter (fun d => rs m d))
    ∧ virsh_list re_search_caret_web world_web "^web" "running"
        = .ret (.names ["web1", "web2"]) := by
  constructor
  · intro rs m L
    simpa using list_filter_go rs m L []
  · decide

/-- Claim C3 (counterexample): from configuration mode with
`modified = true`, a forced exit returns without error and leaves
configuration mode, but the `session_modified` flag stays `true` — the
claim's "clears the modified flag" is false on the code, which only
assigns `conf_mode`. -/
theorem c3_force_exit_keeps_modified :
    (vy_exit { session_modified := true, session_saved := true,
               conf_mode := true } true).err = none
    ∧ (vy_exit { session_modified := true, session_saved := true,
                 conf_mode := true } true).state.conf_mode = false
    ∧ (vy_exit { session_modified := true, session_saved := true,
                 conf_mode := true } true).state.session_modified ≠ false := by
  decide

/-- Claim C3 (amended): in configuration mode, `exit` without the force
flag raises `VyOSError` and changes nothing (no command sent) whenever
there are uncommitted or unsaved changes; `exit` with `force = true`
always succeeds and moves to operational mode, but leaves
`session_modified` unchanged rather than clearing it. -/
theorem c3_exit_amended (s : RouterFlags) (force : Bool)
    (hc : s.conf_mode = true) :
    ((s.session_modified = true ∨ s.session_saved = false) → force = false →
        vy_exit s force = { err := some .vyos, state := s, sent := [] })
    ∧ (force = true → (vy_exit s force).err = none
        ∧ (vy_exit s force).state.conf_mode = false
        ∧ (vy_exit s force).state.session_modified = s.session_modified) := by
  obtain ⟨m, sv, c⟩ := s
  simp only [RouterFlags.mk.injEq] at hc ⊢
  subst hc
  constructor
  · intro h hf
    subst hf
    cases m with
    | true => simp [vy_exit]
    | false =>
      cases sv with
      | true => simp at h
      | false => simp [vy_exit]
  · intro hf
    subst hf
    cases m <;> cases sv <;> simp [vy_exit]

/-- Witness for the amended C3 at a concrete session state. -/
theorem c3_exit_amended_witness :
    vy_exit { session_modified := true, session_saved := true,
              conf_mode := true } false
      = { err := some .vyos,
          state := { session_modified := true, session_saved := true,
                     conf_mode := true },
          sent := [] } :=
  (c3_exit_amended
      { session_modified := true, session_saved := true, conf_mode := true }
      false rfl).1 (Or.inl rfl) rfl

/-- Claim C4 (counterexample): dispatching
`set interfaces eth0 address 1.2.3.4` through
`run_config_mode_command` while the device transcript contains
"already exists" raises nothing: the call returns the normalized
output lines, and the router's `session_modified` flag is `false`
merely because nothing ever assigns it. -/
theorem c4_no_error_on_already_exists :
    (run_config_mode_command "set interfaces eth0 address 1.2.3.4" false
        raw_c4).result
      = .ok (some
          ["Configuration path: [interfaces eth0 address 1.2.3.4] already exists",
           "[edit]",
           "vyos@vyos# commit"])
    ∧ raw_c4.any (fun l => py_contains l "already exists") = true
    ∧ (run_config_mode_command "set interfaces eth0 address 1.2.3.4" false
        raw_c4).flags = some router_init
    ∧ router_init.session_modified = false := by
  decide

/-- Claim C4 (amended): `run_config_mode_command` performs no
inspection of the device output, so even when the output contains
"already exists" it returns the normalized output without raising any
error, and the fresh router's `session_modified` flag remains `false`;
the `ConfigError` check for "already exists" exists only in the
unwired stub `_set`. -/
theorem c4_amended (command : String) (sc : Bool) (raw : List String)
    (h1 : config_allow_list.any (fun p => py_startswith command p) = true)
    (h2 : raw.any (fun l => py_contains l "already exists") = true) :
    (∀ out, execute_command_output raw true = .ok out →
        (run_config_mode_command command sc raw).result = .ok (some out))
    ∧ (run_config_mode_command command sc raw).flags = some router_init
    ∧ router_init.session_modified = false := by
  refine ⟨fun out hout => ?_, ?_, rfl⟩
  · simp [run_config_mode_command, h1, hout]
  · simp [run_config_mode_command, h1]

/-- Witness for the amended C4 at the concrete scenario input. -/
theorem c4_amended_witness :
    (run_config_mode_command "set interfaces eth0 address 1.2.3.4" false
        raw_c4).result
      = .ok (some
          ["Configuration path: [interfaces eth0 address 1.2.3.4] already exists",
           "[edit]",
           "vyos@vyos# commit"])
    ∧ (run_config_mode_command "set interfaces eth0 address 1.2.3.4" false
        raw_c4).flags = some router_init := by
  have h := c4_amended "set interfaces eth0 address 1.2.3.4" false raw_c4
    (by decide) (by decide)
  exact ⟨h.1 _ (by decide), h.2.1⟩

/-- Claim C5 (counterexample): `showdown` has first token `showdown`,
not the literal token `show`, yet `run_op_mode_command` accepts it and
opens a session, because the source checks
`command.startswith('show')` — a string prefix, not a token. -/
theorem c5_token_counterexample :
    spec_first_token "showdown" ≠ "show"
    ∧ (run_op_mode_command "showdown" raw_c5).session_opened = true := by
  decide

/-- Claim C5 (amended): a command is accepted by
`run_op_mode_command` exactly when the command string begins with the
four characters `show` (a prefix check, so e.g. `showdown ...` is also
accepted); any other command is answered with the literal usage
message, no session is opened and nothing is sent to a device. -/
theorem c5_amended (command : String) (raw : List String) :
    (run_op_mode_command command raw).session_opened
        = py_startswith command "show"
    ∧ (py_startswith command "show" = false →
        run_op_mode_command command raw
          = { result := .ok (.msg "Op mode commands must begin with \"show\"."),
              session_opened := false, sent := [] }) := by
  cases h : py_startswith command "show" <;> simp [run_op_mode_command, h]

/-- Witness for the amended C5 on the spec's scenario command. -/
theorem c5_amended_witness :
    (run_op_mode_command "reload system" raw_c5).session_opened
        = py_startswith "reload system" "show"
    ∧ run_op_mode_command "reload system" raw_c5
        = { result := .ok (.msg "Op mode commands must begin with \"show\"."),
            session_opened := false, sent := [] } := by
  have h := c5_amended "reload system" raw_c5
  exact ⟨h.1, h.2 (by decide)⟩

/-- Claim C6 (counterexample): when the hypervisor connection cannot be
opened, `reboot` does not return `False`: `_connect_to_libvirt` calls
`exit(1)`, terminating the call. -/
theorem c6_connection_failure_terminates :
    virsh_reboot world_down "web1" = .exited 1
    ∧ virsh_reboot world_down "web1" ≠ .ret (.boolean false) := by
  decide

/-- Claim C6 (amended): once a connection is open, lookup and
lifecycle failures are collapsed into boolean returns — `reboot`,
`shutdown` and `start` return `True` exactly when lookup and the
lifecycle call succeed and `False` otherwise; in `shutdown_matching`
and `start_matching` an enumeration failure yields `False` while
per-domain lifecycle failures are only logged and the domain list is
returned; but a connection failure is not converted to `False` — it
terminates the call through `exit(1)`. -/
theorem c6_amended (w : LibvirtWorld) (d mtch : String) (force : Bool)
    (rs : String → String → Bool) (h : w.open_ok = true) :
    virsh_reboot w d = .ret (.boolean (w.lookup_ok d && w.reboot_ok d))
    ∧ virsh_shutdown w d force
        = .ret (.boolean (w.lookup_ok d &&
            (if force then w.destroy_ok d else w.shutdown_ok d)))
    ∧ virsh_start w d = .ret (.boolean (w.lookup_ok d && w.create_ok d))
    ∧ (w.list_all_ok = false →
        virsh_shutdown_matching rs w mtch force = .ret (.boolean false)
        ∧ virsh_start_matching rs w mtch 1 = .ret (.boolean false))
    ∧ (w.list_all_ok = true →
        virsh_shutdown_matching rs w mtch force = .ret (.names (w.domains_for 0))
        ∧ virsh_start_matching rs w mtch 1 = .ret (.names (w.domains_for 0)))
    ∧ (∀ w' : LibvirtWorld, w'.open_ok = false →
        virsh_reboot w' d = .exited 1) := by
  refine ⟨?_, ?_, ?_, fun hl => ?_, fun hl => ?_, fun w' hw => ?_⟩
  · cases hb : w.lookup_ok d && w.reboot_ok d <;> simp [virsh_reboot, h, hb]
  · cases hb : w.lookup_ok d &&
        (if force then w.destroy_ok d else w.shutdown_ok d) <;>
      simp [virsh_shutdown, h, hb]
  · cases hb : w.lookup_ok d && w.create_ok d <;> simp [virsh_start, h, hb]
  · exact ⟨by simp [virsh_shutdown_matching, h, hl],
      by simp [virsh_start_matching, h, hl]⟩
  · exact ⟨by simp [virsh_shutdown_matching, h, hl],
      by simp [virsh_start_matching, h, hl]⟩
  · simp [virsh_reboot, hw]

/-- Witness for the amended C6 on a healthy concrete world. -/
theorem c6_amended_witness :
    virsh_reboot world_web "web1" = .ret (.boolean true)
    ∧ virsh_shutdown_matching re_search_caret_web world_web ".*" false
        = .ret (.names ["web1", "web2", "db1"]) := by
  have h := c6_amended world_web "web1" ".*" false re_search_caret_web rfl
  exact ⟨h.1.trans (by decide), ((h.2.2.2.2.1 rfl).1).trans (by decide)⟩

/-- Claim C7: `get_utc_epoch_time` applies `time.mktime` — the
local-calendar conversion, the same function `get_local_epoch_time`
uses — to the UTC time tuple: its result on any clock equals what the
local path would compute if the local clock read the UTC tuple, and on
a clock whose UTC conversion (`calendar.timegm`) disagrees with
`mktime` the code returns the `mktime` value, not the UTC-conversion
value. -/
theorem c7_utc_epoch_uses_mktime :
    (∀ c : HostClock, get_utc_epoch_time c = c.mktime_int c.utcnow_tuple)
    ∧ (∀ c : HostClock,
        get_utc_epoch_time c
          = get_local_epoch_time { c with now_tuple := c.utcnow_tuple })
    ∧ get_utc_epoch_time clock_ex = 1000
    ∧ clock_ex.timegm_int clock_ex.utcnow_tuple = 2000
    ∧ get_utc_epoch_time clock_ex ≠ clock_ex.timegm_int clock_ex.utcnow_tuple := by
  exact ⟨fun c => rfl, fun c => rfl, rfl, rfl, by decide⟩

/-- Claim C8: in configuration mode with `modified = true`, `_save`
raises `VyOSError` with no command sent to the device and the session
flags unchanged. -/
theorem c8_save_guard (s : RouterFlags) (h1 : s.conf_mode = true)
    (h2 : s.session_modified = true) :
    vy_save s = { err := some .vyos, state := s, sent := [] } := by
  obtain ⟨m, sv, c⟩ := s
  simp only [RouterFlags.mk.injEq] at h1 h2
  subst h1
  subst h2
  simp [vy_save]

/-- Witness for C8 at a concrete session state. -/
theorem c8_save_guard_witness :
    vy_save { session_modified := true, session_saved := false,
              conf_mode := true }
      = { err := some .vyos,
          state := { session_modified := true, session_saved := false,
                     conf_mode := true },
          sent := [] } :=
  c8_save_guard
    { session_modified := true, session_saved := false, conf_mode := true }
    rfl rfl

/-- Claim C9: a command whose string matches none of the allow-list
entries as a prefix makes `run_config_mode_command` fall through its
`if`: Python `None` is returned, no error is raised, no `Router` is
constructed and nothing is sent. -/
theorem c9_rejected_config_command_is_none (command : String) (sc : Bool)
    (raw : List String)
    (h : config_allow_list.any (fun p => py_startswith command p) = false) :
    run_config_mode_command command sc raw
      = { result := .ok none, session_opened := false, sent := [],
          flags := none } := by
  simp [run_config_mode_command, h]

/-- Witness for C9 on a command outside the allow-list. -/
theorem c9_rejected_config_command_is_none_witness :
    run_config_mode_command "reboot now" false raw_c5
      = { result := .ok none, session_opened := false, sent := [],
          flags := none } :=
  c9_rejected_config_command_is_none "reboot now" false raw_c5 (by decide)

/-- Claim C10: `status` on a freshly constructed `Router` reads the
attribute `logged_in` first, which `__init__` (the only place the
class assigns attributes) never binds, so the call raises
`AttributeError`. -/
theorem c10_status_attribute_error :
    router_status router_init_attrs = .error (.attributeError "logged_in")
    ∧ router_init_attrs.all (fun kv => !(kv.1 == "logged_in")) = true := by
  decide
